import Mathlib

/-!
# Shallow embedding of `router.go` (easier-web)

The repository's single source file, `router.go`, defines the registration
surface of an HTTP router: a `Router` record built by `New` from option
structs, verb-registration operations (`GET` … `DELETE`), the `Any` sugar,
`WS` (WebSocket upgrade route), `Static`/`StaticFS` (direct file serving via
the route registry) and `Use` (middleware append).

The external route registry (`julienschmidt/httprouter`) is a black box to
this layer; we model it as the list of registration events this layer feeds
it, in order.  Handles and the three hook functions are opaque behaviour
values; we model each as an inductive carrying an identity, with a
distinguished constructor for the built-in system default that `New`
installs before applying the options.
-/

namespace EasierWeb

/-- The seven HTTP verbs for which `router.go` has a registration operation. -/
inductive Verb where
  | GET
  | HEAD
  | OPTIONS
  | POST
  | PUT
  | PATCH
  | DELETE
deriving DecidableEq, Repr

/-- Opaque `ErrorHandle` function values (`type ErrorHandle func(ctx *Context, err any)`).
`sysDefault` is the built-in `defaultErrorHandle` installed by `New`. -/
inductive ErrorHandle where
  | sysDefault
  | custom (id : Nat)
deriving DecidableEq, Repr

/-- Opaque `RequestHandle` function values (`type RequestHandle func(ctx *Context, reqObj any) error`).
`sysDefault` is the built-in `defaultRequestHandle` installed by `New`. -/
inductive RequestHandle where
  | sysDefault
  | custom (id : Nat)
deriving DecidableEq, Repr

/-- Opaque `ResponseHandle` function values (`type ResponseHandle func(ctx *Context, result any, err error)`).
`sysDefault` is the built-in `defaultResponseHandle` installed by `New`. -/
inductive ResponseHandle where
  | sysDefault
  | custom (id : Nat)
deriving DecidableEq, Repr

/-- Opaque `Handle` values (`type Handle func(ctx *Context)`).  `base` is a
handle supplied directly by the caller; `adapted` is a handle produced by the
Handler Adapter (`buildHandle`, modelled below) from an arbitrary business
value, capturing the effective request/response hooks frozen at registration
time. -/
inductive Handle where
  | base (id : Nat)
  | adapted (business : Nat) (reqHook : RequestHandle) (respHook : ResponseHandle)
deriving DecidableEq, Repr

/-- The parts of `websocket.Config` visible to a handshake decision. -/
structure WSConfig where
  origin : String := ""
deriving DecidableEq, Repr

/-- The parts of an incoming `*http.Request` that a handshake decision could
inspect.  `origin` carries the Origin header, so that cross-origin requests
are expressible. -/
structure HttpRequest where
  origin : String := ""
  host : String := ""
deriving DecidableEq, Repr

/-- A WebSocket handshake decision: `none` models a `nil` error (accept),
`some msg` models a non-nil error (reject). -/
def HandshakeFn : Type := WSConfig → HttpRequest → Option String

/-- The handshake that `WS` installs (`router.go` lines 177-180): it returns
`nil` unconditionally, accepting every handshake, cross-origin included. -/
def wsAcceptAllHandshake : HandshakeFn := fun _ _ => none

/-- An `http.FileSystem` argument: `http.Dir` over a directory path, or any
other (virtual) filesystem value. -/
inductive FS where
  | dir (path : String)
  | virtualFS (id : Nat)
deriving DecidableEq, Repr

/-- `http.Dir(dir)`. -/
def httpDir (dir : String) : FS := .dir dir

/-- What the closure registered with the route registry does when invoked:
`handleA h` models the plain wrapper `func(res, req, par) { r.handle(handle, res, req, par, nil) }`;
`wsA h hs` models the `WS` wrapper that builds a `websocket.Server` with
handler `h` and handshake `hs` and serves the upgrade. -/
inductive Action where
  | handleA (h : Handle)
  | wsA (h : Handle) (hs : HandshakeFn)

/-- One registration event fed to the external route registry, in order:
`route v p a` models `r.router.{GET,...}(p, wrapper)`; `files p fs` models
`r.router.ServeFiles(p, fs)`, the registry's direct file-serving operation. -/
inductive RegEvent where
  | route (verb : Verb) (path : String) (action : Action)
  | files (path : String) (fs : FS)

/-- The `Router` struct (`router.go` lines 21-31).  The `router` field is the
external registry, modelled as the ordered list of registration events; the
`server` field (used only by `Run`/`RunTLS`/`Close`) is not needed by any
registration operation and is omitted. -/
structure Router where
  rootPath : String
  multipartFormMaxMemory : Int
  router : List RegEvent
  middlewares : List Handle
  errorHandle : ErrorHandle
  requestHandle : RequestHandle
  responseHandle : ResponseHandle
  closeConsolePrint : Bool

/-- `RouterOptions` (`router.go` lines 12-19).  Go zero values mark a field
unset: `""` for `RootPath`, a non-positive value for `MultipartFormMaxMemory`
(the code tests `> 0`), `nil` (here `none`) for the three hook fields;
`CloseConsolePrint` is a plain bool with no unset state. -/
structure RouterOptions where
  RootPath : String := ""
  MultipartFormMaxMemory : Int := 0
  ErrorHandle : Option ErrorHandle := none
  RequestHandle : Option RequestHandle := none
  ResponseHandle : Option ResponseHandle := none
  CloseConsolePrint : Bool := false

/-- `PluginOptions` (`router.go` lines 33-36): per-route overrides for the
request and response hooks only — the struct has no `ErrorHandle` field. -/
structure PluginOptions where
  RequestHandle : Option RequestHandle := none
  ResponseHandle : Option ResponseHandle := none

/-- The body of `New`'s options loop (`router.go` lines 54-71): each of the
five defaultable fields is overwritten only when the option value sets it
(non-empty string, positive size, non-nil hook); `closeConsolePrint` is
copied unconditionally. -/
def applyOptions (r : Router) (v : RouterOptions) : Router :=
  { rootPath := if v.RootPath ≠ "" then v.RootPath else r.rootPath
    multipartFormMaxMemory :=
      if v.MultipartFormMaxMemory > 0 then v.MultipartFormMaxMemory
      else r.multipartFormMaxMemory
    router := r.router
    middlewares := r.middlewares
    errorHandle := v.ErrorHandle.getD r.errorHandle
    requestHandle := v.RequestHandle.getD r.requestHandle
    responseHandle := v.ResponseHandle.getD r.responseHandle
    closeConsolePrint := v.CloseConsolePrint }

/-- `New(opts ...RouterOptions)` (`router.go` lines 46-73): start from the
built-in defaults (32 MiB multipart ceiling, the three system default hooks,
empty root path, fresh registry, no middlewares) and fold the options over
them in order. -/
def New (opts : List RouterOptions) : Router :=
  opts.foldl applyOptions
    { rootPath := ""
      multipartFormMaxMemory := 32 * 2 ^ 20
      router := []
      middlewares := []
      errorHandle := .sysDefault
      requestHandle := .sysDefault
      responseHandle := .sysDefault
      closeConsolePrint := false }

/-- `GET` (`router.go` lines 111-116): insert under verb GET at
`rootPath + path` and return the router. -/
def Router.GET (r : Router) (path : String) (h : Handle) : Router :=
  { r with router := r.router ++ [.route .GET (r.rootPath ++ path) (.handleA h)] }

/-- `HEAD` (`router.go` lines 118-123). -/
def Router.HEAD (r : Router) (path : String) (h : Handle) : Router :=
  { r with router := r.router ++ [.route .HEAD (r.rootPath ++ path) (.handleA h)] }

/-- `OPTIONS` (`router.go` lines 125-130). -/
def Router.OPTIONS (r : Router) (path : String) (h : Handle) : Router :=
  { r with router := r.router ++ [.route .OPTIONS (r.rootPath ++ path) (.handleA h)] }

/-- `POST` (`router.go` lines 132-137). -/
def Router.POST (r : Router) (path : String) (h : Handle) : Router :=
  { r with router := r.router ++ [.route .POST (r.rootPath ++ path) (.handleA h)] }

/-- `PUT` (`router.go` lines 139-144). -/
def Router.PUT (r : Router) (path : String) (h : Handle) : Router :=
  { r with router := r.router ++ [.route .PUT (r.rootPath ++ path) (.handleA h)] }

/-- `PATCH` (`router.go` lines 146-151). -/
def Router.PATCH (r : Router) (path : String) (h : Handle) : Router :=
  { r with router := r.router ++ [.route .PATCH (r.rootPath ++ path) (.handleA h)] }

/-- `DELETE` (`router.go` lines 153-158). -/
def Router.DELETE (r : Router) (path : String) (h : Handle) : Router :=
  { r with router := r.router ++ [.route .DELETE (r.rootPath ++ path) (.handleA h)] }

/-- `Any` (`router.go` lines 160-169): call the seven verb operations in
source order with the same path and handle. -/
def Router.Any (r : Router) (path : String) (h : Handle) : Router :=
  ((((((r.GET path h).HEAD path h).OPTIONS path h).POST path h).PUT
      path h).PATCH path h).DELETE path h

/-- `WS` (`router.go` lines 171-184): insert under verb GET at
`rootPath + path` a closure that serves a `websocket.Server` whose handler
runs `h` over the upgraded socket and whose handshake is the fixed
accept-all function. -/
def Router.WS (r : Router) (path : String) (h : Handle) : Router :=
  { r with
    router := r.router ++ [.route .GET (r.rootPath ++ path) (.wsA h wsAcceptAllHandshake)] }

/-- `StaticFS` (`router.go` lines 190-193): hand `rootPath + path` and the
filesystem to the registry's `ServeFiles` operation. -/
def Router.StaticFS (r : Router) (path : String) (fs : FS) : Router :=
  { r with router := r.router ++ [.files (r.rootPath ++ path) fs] }

/-- `Static` (`router.go` lines 186-188): `StaticFS` over `http.Dir(dir)`. -/
def Router.Static (r : Router) (path dir : String) : Router :=
  r.StaticFS path (httpDir dir)

/-- `Use` (`router.go` lines 195-198): append the argument handles to the
middleware list. -/
def Router.Use (r : Router) (middlewares : List Handle) : Router :=
  { r with middlewares := r.middlewares ++ middlewares }

/-- Modelled from the spec: `buildHandle`, the Handler Adapter, lives in a
repository file that is not under `src/`.  Per the spec it inspects the
business value once at registration time and produces a canonical `Handle`
capturing the effective `RequestHandle` and `ResponseHandle` for the route —
the per-route override when supplied, else the router-wide hook.
`PluginOptions` has no error-hook field, so no per-route error hook can be
captured. -/
def Router.buildHandle (r : Router) (easyHandle : Nat) (opts : List PluginOptions) : Handle :=
  .adapted easyHandle
    (opts.foldl (fun a o => o.RequestHandle.getD a) r.requestHandle)
    (opts.foldl (fun a o => o.ResponseHandle.getD a) r.responseHandle)

/-- `EasyGET` (`router.go` lines 77-79). -/
def Router.EasyGET (r : Router) (path : String) (easyHandle : Nat)
    (opts : List PluginOptions) : Router :=
  r.GET path (r.buildHandle easyHandle opts)

/-- `EasyHEAD` (`router.go` lines 81-83). -/
def Router.EasyHEAD (r : Router) (path : String) (easyHandle : Nat)
    (opts : List PluginOptions) : Router :=
  r.HEAD path (r.buildHandle easyHandle opts)

/-- `EasyOPTIONS` (`router.go` lines 85-87). -/
def Router.EasyOPTIONS (r : Router) (path : String) (easyHandle : Nat)
    (opts : List PluginOptions) : Router :=
  r.OPTIONS path (r.buildHandle easyHandle opts)

/-- `EasyPOST` (`router.go` lines 89-91). -/
def Router.EasyPOST (r : Router) (path : String) (easyHandle : Nat)
    (opts : List PluginOptions) : Router :=
  r.POST path (r.buildHandle easyHandle opts)

/-- `EasyPUT` (`router.go` lines 93-95). -/
def Router.EasyPUT (r : Router) (path : String) (easyHandle : Nat)
    (opts : List PluginOptions) : Router :=
  r.PUT path (r.buildHandle easyHandle opts)

/-- `EasyPATCH` (`router.go` lines 97-99). -/
def Router.EasyPATCH (r : Router) (path : String) (easyHandle : Nat)
    (opts : List PluginOptions) : Router :=
  r.PATCH path (r.buildHandle easyHandle opts)

/-- `EasyDELETE` (`router.go` lines 101-103). -/
def Router.EasyDELETE (r : Router) (path : String) (easyHandle : Nat)
    (opts : List PluginOptions) : Router :=
  r.DELETE path (r.buildHandle easyHandle opts)

/-- `EasyAny` (`router.go` lines 105-107). -/
def Router.EasyAny (r : Router) (path : String) (easyHandle : Nat)
    (opts : List PluginOptions) : Router :=
  r.Any path (r.buildHandle easyHandle opts)

/-- The actions the registry holds for a given verb and concrete path, in
registration order: what routing dispatches to at that (verb, path). -/
def Router.routesFor (r : Router) (v : Verb) (p : String) : List Action :=
  r.router.filterMap fun e =>
    match e with
    | .route v2 p2 a => if v2 = v ∧ p2 = p then some a else none
    | .files _ _ => none

/-- Whether a registration event goes through the Handle/Hook pipeline:
`route` events wrap a `Handle` in `r.handle` (Context construction,
middleware chain, hooks); `files` events are served directly by the
registry's file server with none of that. -/
def usesHandlePipeline : RegEvent → Bool
  | .route _ _ _ => true
  | .files _ _ => false

/-- Modelled from the spec: the per-request pipeline (`r.handle`, defined in
a repository file that is not under `src/`) executes the router's
middleware list in list order before the route's own handle; the list it is
handed is the router's `middlewares` field. -/
def requestTimeMiddlewareOrder (r : Router) : List Handle :=
  r.middlewares

/-- Modelled from the spec: the effective `ErrorHandle` for a route at
request time is the per-route override when supplied, else the router-wide
hook; `PluginOptions` exposes no per-route error hook, so resolution always
falls through to the router-wide one. -/
def effectiveErrorHandle (r : Router) (_ : List PluginOptions) : ErrorHandle :=
  r.errorHandle

/-- The spec's description of `Any` (§4.1, §8): register the same handle
individually under each of the seven verbs for the path. -/
def specAnyRegistration (r : Router) (p : String) (h : Handle) : Router :=
  ((((((r.GET p h).HEAD p h).OPTIONS p h).POST p h).PUT
      p h).PATCH p h).DELETE p h

/-- The configuration portion of a router's state: everything except the
accumulated registrations and middlewares. -/
def configOf (r : Router) :
    String × Int × ErrorHandle × RequestHandle × ResponseHandle × Bool :=
  (r.rootPath, r.multipartFormMaxMemory, r.errorHandle, r.requestHandle,
    r.responseHandle, r.closeConsolePrint)

/-- The handshake functions among a router's registered events, in
registration order.  Only `WS` registrations contribute one. -/
def wsHandshakes (r : Router) : List HandshakeFn :=
  r.router.filterMap fun e =>
    match e with
    | .route _ _ (.wsA _ hs) => some hs
    | _ => none

/-- Folding `Use` over a sequence of middleware bundles concatenates them
onto the existing list in registration order. -/
theorem foldl_use_middlewares (r : Router) (css : List (List Handle)) :
    (css.foldl Router.Use r).middlewares = r.middlewares ++ css.flatten := by
  induction css generalizing r with
  | nil => simp
  | cons c cs ih => simp [Router.Use, ih, List.append_assoc]

/-- C1: every verb-registration operation with path `p` and handle `h`
inserts into the route registry keyed by `(verb, rootPath ++ p)`; a router
constructed with root path `"/api/v1"` on which `GET "/ping" h` is called
makes `h` reachable at `"/api/v1/ping"` and not at `"/ping"`. -/
theorem verb_registration_uses_root_prefixed_key (r : Router) (p : String) (h : Handle) :
    (r.GET p h).router = r.router ++ [.route .GET (r.rootPath ++ p) (.handleA h)] ∧
    (r.HEAD p h).router = r.router ++ [.route .HEAD (r.rootPath ++ p) (.handleA h)] ∧
    (r.OPTIONS p h).router = r.router ++ [.route .OPTIONS (r.rootPath ++ p) (.handleA h)] ∧
    (r.POST p h).router = r.router ++ [.route .POST (r.rootPath ++ p) (.handleA h)] ∧
    (r.PUT p h).router = r.router ++ [.route .PUT (r.rootPath ++ p) (.handleA h)] ∧
    (r.PATCH p h).router = r.router ++ [.route .PATCH (r.rootPath ++ p) (.handleA h)] ∧
    (r.DELETE p h).router = r.router ++ [.route .DELETE (r.rootPath ++ p) (.handleA h)] ∧
    ((New [{ RootPath := "/api/v1" }]).GET "/ping" h).routesFor .GET "/api/v1/ping" =
      [.handleA h] ∧
    ((New [{ RootPath := "/api/v1" }]).GET "/ping" h).routesFor .GET "/ping" = [] := by
  refine ⟨rfl, rfl, rfl, rfl, rfl, rfl, rfl, ?_, ?_⟩ <;>
    simp [New, applyOptions, Router.GET, Router.routesFor]

/-- C2: `Any p h` performs exactly the seven individual verb registrations
(GET, HEAD, OPTIONS, POST, PUT, PATCH, DELETE) at `p` with the same handle
`h` — it is state-for-state equal to the chained individual registrations,
and appends exactly those seven registry entries, deduplicating nothing. -/
theorem any_is_seven_individual_registrations (r : Router) (p : String) (h : Handle) :
    r.Any p h = specAnyRegistration r p h ∧
    (r.Any p h).router = r.router ++
      [.route .GET (r.rootPath ++ p) (.handleA h),
       .route .HEAD (r.rootPath ++ p) (.handleA h),
       .route .OPTIONS (r.rootPath ++ p) (.handleA h),
       .route .POST (r.rootPath ++ p) (.handleA h),
       .route .PUT (r.rootPath ++ p) (.handleA h),
       .route .PATCH (r.rootPath ++ p) (.handleA h),
       .route .DELETE (r.rootPath ++ p) (.handleA h)] := by
  refine ⟨rfl, ?_⟩
  simp [Router.Any, Router.GET, Router.HEAD, Router.OPTIONS, Router.POST,
    Router.PUT, Router.PATCH, Router.DELETE]

/-- C3: `Use` appends its argument handles to the middleware list, and any
sequence of `Use` calls leaves the list in registration order, which is the
order handed to request-time execution. -/
theorem use_appends_in_registration_order (r : Router) (ms : List Handle)
    (css : List (List Handle)) :
    (r.Use ms).middlewares = r.middlewares ++ ms ∧
    (css.foldl Router.Use r).middlewares = r.middlewares ++ css.flatten ∧
    requestTimeMiddlewareOrder (css.foldl Router.Use r) = r.middlewares ++ css.flatten :=
  ⟨rfl, foldl_use_middlewares r css, foldl_use_middlewares r css⟩

/-- C4: `New` resolves each `RouterOptions` field independently — an unset
field inherits the built-in default (32 MiB ceiling, the three system
default hooks, empty root path) and a set field overrides it; no field is
partially merged. -/
theorem new_resolves_each_field_independently (o : RouterOptions) :
    (New []).rootPath = "" ∧
    (New []).multipartFormMaxMemory = 32 * 2 ^ 20 ∧
    (New []).errorHandle = ErrorHandle.sysDefault ∧
    (New []).requestHandle = RequestHandle.sysDefault ∧
    (New []).responseHandle = ResponseHandle.sysDefault ∧
    (New []).closeConsolePrint = false ∧
    (New [o]).rootPath = (if o.RootPath ≠ "" then o.RootPath else "") ∧
    (New [o]).multipartFormMaxMemory =
      (if o.MultipartFormMaxMemory > 0 then o.MultipartFormMaxMemory else 32 * 2 ^ 20) ∧
    (New [o]).errorHandle = o.ErrorHandle.getD ErrorHandle.sysDefault ∧
    (New [o]).requestHandle = o.RequestHandle.getD RequestHandle.sysDefault ∧
    (New [o]).responseHandle = o.ResponseHandle.getD ResponseHandle.sysDefault ∧
    (New [o]).closeConsolePrint = o.CloseConsolePrint :=
  ⟨rfl, rfl, rfl, rfl, rfl, rfl, rfl, rfl, rfl, rfl, rfl, rfl⟩

/-- C5: `WS p h` registers under verb GET (and no other) at
`rootPath ++ p`, and the handshake it installs accepts every handshake
unconditionally — for every config and request the decision is success
(`none`, i.e. a nil error), whatever the request's origin. -/
theorem ws_registers_get_with_accept_all_handshake (r : Router) (p : String)
    (h : Handle) (cfg : WSConfig) (req : HttpRequest) :
    (r.WS p h).router =
      r.router ++ [.route .GET (r.rootPath ++ p) (.wsA h wsAcceptAllHandshake)] ∧
    wsAcceptAllHandshake cfg req = none :=
  ⟨rfl, rfl⟩

/-- C6 counterexample: a caller registering a WS route supplies only a path
and a handle; at the concrete registration `WS "/ws" (base 0)` on a fresh
router, the installed handshake is the fixed accept-all function, which
accepts even a cross-origin request — no caller-supplied accept/reject
decision is anywhere in the registration. -/
theorem ws_handshake_fixed_cx :
    ((New []).WS "/ws" (.base 0)).router =
      [.route .GET "/ws" (.wsA (.base 0) wsAcceptAllHandshake)] ∧
    wsAcceptAllHandshake {}
      { origin := "http://attacker.example", host := "api.example" } = none :=
  ⟨rfl, rfl⟩

/-- C6 amended: the handshake step of `WS` is not caller-configurable:
whatever router, path and handle the caller supplies, the registration
installs exactly the fixed accept-all handshake (which receives the
original request but accepts it unconditionally); supplying a custom
accept/reject decision through `WS` is impossible. -/
theorem ws_handshake_independent_of_caller (r : Router) (p : String) (h : Handle)
    (cfg : WSConfig) (req : HttpRequest) :
    wsHandshakes (r.WS p h) = wsHandshakes r ++ [wsAcceptAllHandshake] ∧
    wsAcceptAllHandshake cfg req = none := by
  refine ⟨?_, rfl⟩
  simp [wsHandshakes, Router.WS]

/-- C7: per-route `PluginOptions` is exactly its `RequestHandle` and
`ResponseHandle` fields — no per-route error hook exists — so the effective
`ErrorHandle` for any route at request time is the router-wide one: the
construction-time override when set, else the system default. -/
theorem error_handle_is_global_only (po : PluginOptions) (r : Router)
    (opts : List PluginOptions) (o : RouterOptions) :
    po = ⟨po.RequestHandle, po.ResponseHandle⟩ ∧
    effectiveErrorHandle r opts = r.errorHandle ∧
    effectiveErrorHandle (New [o]) opts = o.ErrorHandle.getD ErrorHandle.sysDefault :=
  ⟨rfl, rfl, rfl⟩

/-- C8: `Static`/`StaticFS` register a root-prefixed path with the
registry's direct file-serving operation — an event that carries no handle
and goes through none of the Handle/Hook pipeline — and `Static p d` is
identical to `StaticFS p (http.Dir d)`. -/
theorem static_bypasses_handle_pipeline (r : Router) (p d : String) (fs : FS) :
    r.Static p d = r.StaticFS p (httpDir d) ∧
    (r.StaticFS p fs).router = r.router ++ [.files (r.rootPath ++ p) fs] ∧
    usesHandlePipeline (.files (r.rootPath ++ p) fs) = false :=
  ⟨rfl, rfl, rfl⟩

/-- C9: every registration operation returns the very router it was invoked
on — the result keeps all configuration fields and previously accumulated
registrations, adding only its own effect — so calls chain, later calls
seeing earlier registrations. -/
theorem registration_ops_return_router_chainable (r : Router) (p p2 d : String)
    (h h2 : Handle) (fs : FS) (b : Nat) (po : List PluginOptions) (ms : List Handle) :
    configOf (r.GET p h) = configOf r ∧
    configOf (r.HEAD p h) = configOf r ∧
    configOf (r.OPTIONS p h) = configOf r ∧
    configOf (r.POST p h) = configOf r ∧
    configOf (r.PUT p h) = configOf r ∧
    configOf (r.PATCH p h) = configOf r ∧
    configOf (r.DELETE p h) = configOf r ∧
    configOf (r.Any p h) = configOf r ∧
    configOf (r.WS p h) = configOf r ∧
    configOf (r.Static p d) = configOf r ∧
    configOf (r.StaticFS p fs) = configOf r ∧
    configOf (r.Use ms) = configOf r ∧
    configOf (r.EasyGET p b po) = configOf r ∧
    configOf (r.EasyHEAD p b po) = configOf r ∧
    configOf (r.EasyOPTIONS p b po) = configOf r ∧
    configOf (r.EasyPOST p b po) = configOf r ∧
    configOf (r.EasyPUT p b po) = configOf r ∧
    configOf (r.EasyPATCH p b po) = configOf r ∧
    configOf (r.EasyDELETE p b po) = configOf r ∧
    configOf (r.EasyAny p b po) = configOf r ∧
    ((r.GET p h).POST p2 h2).router = r.router ++
      [.route .GET (r.rootPath ++ p) (.handleA h),
       .route .POST (r.rootPath ++ p2) (.handleA h2)] ∧
    ((r.GET p h).Use ms).middlewares = r.middlewares ++ ms := by
  refine ⟨rfl, rfl, rfl, rfl, rfl, rfl, rfl, rfl, rfl, rfl, rfl, rfl, rfl, rfl,
    rfl, rfl, rfl, rfl, rfl, rfl, ?_, rfl⟩
  simp [Router.GET, Router.POST]

/-- C10: with several options values, every field except
`CloseConsolePrint` overrides only when set (non-empty / positive /
non-nil) and later values win; `CloseConsolePrint` is copied
unconditionally from each value in turn, so the last value's flag always
takes effect — a later value with the flag unset cancels suppression
requested by an earlier one. -/
theorem later_options_win_flag_unconditional (opts : List RouterOptions)
    (o : RouterOptions) :
    (New (opts ++ [o])).rootPath =
      (if o.RootPath ≠ "" then o.RootPath else (New opts).rootPath) ∧
    (New (opts ++ [o])).multipartFormMaxMemory =
      (if o.MultipartFormMaxMemory > 0 then o.MultipartFormMaxMemory
        else (New opts).multipartFormMaxMemory) ∧
    (New (opts ++ [o])).errorHandle = o.ErrorHandle.getD (New opts).errorHandle ∧
    (New (opts ++ [o])).requestHandle = o.RequestHandle.getD (New opts).requestHandle ∧
    (New (opts ++ [o])).responseHandle = o.ResponseHandle.getD (New opts).responseHandle ∧
    (New (opts ++ [o])).closeConsolePrint = o.CloseConsolePrint ∧
    (New [{ CloseConsolePrint := true }, {}]).closeConsolePrint = false := by
  have key : New (opts ++ [o]) = applyOptions (New opts) o := by
    simp [New, List.foldl_append]
  refine ⟨?_, ?_, ?_, ?_, ?_, ?_, rfl⟩ <;> rw [key] <;> rfl

end EasierWeb
